import Mathlib

/-!
Verification of the CocktailHelper repository: a shallow embedding of
`Cocktail.py`, `drink_lookup.py` and `drink_recipe_maker.py` in Lean 4,
together with theorems settling the specification claims.

Modelling conventions:
* A raw CocktailDB API response (a JSON object whose values are strings or
  null) is an association list `List (String × Option String)`; a key that is
  absent from the list models an absent key, a key mapped to `none` models a
  key whose value is JSON null.  `dictGet` models Python `dict.get`, which
  returns `None` both for an absent key and for a null value.
* Python strings are Lean `String`s; `str.split(sep)` is embedded as
  `pyStringSplit` (fuel-based structural recursion so that it evaluates in the
  kernel), `str.strip()` as `pyStrip`, and `sub in s` as `pyContains`.
* Python exceptions are the `PyErr` inductive, and fallible code returns
  `Except PyErr _`.
* A worksheet is a total grid `Nat → Nat → String` (1-indexed rows and
  columns; an unset cell holds `""`, the falsy value read back by
  `is_row_empty`).  `ws.update_cell` is `updateCell`.
-/

namespace CocktailHelper

/-- Errors raised by the embedded Python code. -/
inductive PyErr where
  | valueError (msg : String)
  | indexError
  | keyError (key : String)
  | typeError
  deriving DecidableEq

/-- A raw CocktailDB API response: JSON object with string-or-null values. -/
abbrev ApiResponse := List (String × Option String)

/-- Python `key in d` on a dict. -/
def hasKey (resp : ApiResponse) (k : String) : Bool :=
  resp.any (fun p => p.1 == k)

/-- Python `d.get(key)`: `none` when the key is absent or its value is null. -/
def dictGet (resp : ApiResponse) (k : String) : Option String :=
  match resp.find? (fun p => p.1 == k) with
  | some p => p.2
  | none => none

/-- Python `d[key] = v` on an insertion-ordered dict: overwrite in place when
the key exists, otherwise append at the end. -/
def dictInsert (d : List (String × String)) (k v : String) : List (String × String) :=
  if d.any (fun p => p.1 == k) then
    d.map (fun p => if p.1 == k then (k, v) else p)
  else
    d ++ [(k, v)]

/-- Python `str(x)` on a string-or-None value (`str(None) = "None"`). -/
def pyStr : Option String → String
  | none => "None"
  | some s => s

/-- Python `s.strip()`: drop whitespace from both ends. -/
def pyStrip (s : String) : String :=
  String.mk (((s.data.dropWhile Char.isWhitespace).reverse.dropWhile Char.isWhitespace).reverse)

/-- Python `s.split(sep)` on character lists, for a non-empty `sep`, with
explicit fuel so that the kernel can evaluate it.  At the first position where
`sep` occurs, cut; otherwise carry the head character into the first segment
of the remainder.  `fuel ≥ length of the list` is always sufficient. -/
def pySplit (sep : List Char) : Nat → List Char → List (List Char)
  | _, [] => [[]]
  | 0, s => [s]
  | fuel + 1, c :: cs =>
    if sep.isPrefixOf (c :: cs) then
      [] :: pySplit sep fuel (List.drop (sep.length - 1) cs)
    else
      match pySplit sep fuel cs with
      | [] => [[c]]
      | l :: ls => (c :: l) :: ls

/-- Python `s.split(sep)` on strings. -/
def pyStringSplit (s sep : String) : List String :=
  (pySplit sep.data s.data.length s.data).map String.mk

/-- Helper for `pyContains`: is `sub` a contiguous sublist? -/
def listContainsSublist (sub : List Char) : List Char → Bool
  | [] => sub.isEmpty
  | c :: cs => sub.isPrefixOf (c :: cs) || listContainsSublist sub cs

/-- Python `sub in s` (substring containment). -/
def pyContains (s sub : String) : Bool :=
  listContainsSublist sub.data s.data

/-- `CocktailRecipe._uses_line_breaks` from `Cocktail.py`:
`return "\r\n" in instructions`. -/
def uses_line_breaks (instructions : String) : Bool :=
  pyContains instructions "\r\n"

/-- The instruction-splitting logic of `CocktailRecipe.__init__`: if the raw
instructions contain a CRLF, split on CRLF and keep the segments of non-zero
length; otherwise split on the literal substring `". "` verbatim. -/
def parseInstructions (raw : String) : List String :=
  if uses_line_breaks raw then
    (pyStringSplit raw "\r\n").filter (fun instruction => instruction.length != 0)
  else
    pyStringSplit raw ". "

/-- `CocktailRecipe.check_requirements` from `Cocktail.py`.  The source builds
`required_keys = {"strGlass", "strDrink", "strInstructions"}` and then calls
`required_keys.union({...numbered keys...})` twice WITHOUT using the returned
sets (Python `set.union` is pure), so only the three base keys are checked.
The discarded unions are kept here as dead bindings to mirror the source. -/
def check_requirements (resp : ApiResponse) : Bool :=
  let required_keys : List String := ["strGlass", "strDrink", "strInstructions"]
  let _discarded_union₁ :=
    required_keys ++ (List.range' 1 15).map (fun n => "strMeasure" ++ toString n)
  let _discarded_union₂ :=
    required_keys ++ (List.range' 1 15).map (fun n => "strIngredient" ++ toString n)
  required_keys.all (fun required_key => hasKey resp required_key)

/-- The numbered ingredient key of slot `n`. -/
def ingredientKey (n : Nat) : String := "strIngredient" ++ toString n

/-- The numbered measure key of slot `n`. -/
def measureKey (n : Nat) : String := "strMeasure" ++ toString n

/-- The loop body of `CocktailRecipe._parse_ingredients`, iterating over the
remaining slot numbers with the dict built so far. -/
def parse_slots (resp : ApiResponse) : List Nat → List (String × String) → List (String × String)
  | [], ingredients => ingredients
  | n :: ns, ingredients =>
    match dictGet resp (ingredientKey n) with
    | none => parse_slots resp ns ingredients
    | some ingredient =>
      let amount := match dictGet resp (measureKey n) with
        | none => "To Taste"
        | some a => a
      parse_slots resp ns (dictInsert ingredients ingredient (pyStrip amount))

/-- `CocktailRecipe._parse_ingredients` from `Cocktail.py`: slots 1..15 in
order; a slot whose ingredient value is `None` is skipped; a `None` amount is
replaced by `"To Taste"`; the stored amount is stripped. -/
def parse_ingredients (resp : ApiResponse) : List (String × String) :=
  parse_slots resp (List.range' 1 15) []

/-- The normalized recipe record built by `CocktailRecipe.__init__`. -/
structure CocktailRecipe where
  name : Option String
  glass : Option String
  ingredients : List (String × String)
  instructions : List String
  deriving DecidableEq

/-- `CocktailRecipe.__init__` from `Cocktail.py` as a fallible constructor:
raises `ValueError` when `check_requirements` fails; raises a `TypeError` when
the (required) instructions key has a null value, because the source then
evaluates `"\r\n" in None`. -/
def normalize (resp : ApiResponse) : Except PyErr CocktailRecipe :=
  if check_requirements resp then
    match dictGet resp "strInstructions" with
    | none => Except.error PyErr.typeError
    | some raw =>
      Except.ok
        { name := dictGet resp "strDrink"
          glass := dictGet resp "strGlass"
          ingredients := parse_ingredients resp
          instructions := parseInstructions raw }
  else
    Except.error (PyErr.valueError "Provided api response is malformed.")

/-- `CocktailRecipe.__str__` from `Cocktail.py`: name line, then the
ingredients block accumulated by `+=`, then the enumerated instructions
block, joined by `"".join`. -/
def strRecipe (r : CocktailRecipe) : String :=
  let name_str := "Name: " ++ pyStr r.name ++ "\n"
  let ingredient_str :=
    r.ingredients.foldl
      (fun acc p => acc ++ "- " ++ p.1 ++ " : " ++ p.2 ++ "\n") "Ingredients:\n"
  let instructions_str :=
    r.instructions.enum.foldl
      (fun acc p => acc ++ toString (p.1 + 1) ++ ") " ++ p.2 ++ "\n") "Instructions:\n"
  String.join [name_str, ingredient_str, instructions_str]

/-- Exception-propagating list comprehension: Python
`list(f(x) for x in xs)` where `f` may raise. -/
def mapE (f : α → Except PyErr β) : List α → Except PyErr (List β)
  | [] => Except.ok []
  | a :: as =>
    match f a with
    | Except.error e => Except.error e
    | Except.ok b =>
      match mapE f as with
      | Except.error e => Except.error e
      | Except.ok bs => Except.ok (b :: bs)

/-- The parsed JSON body of a search-by-name call, reduced to its single
top-level `drinks` field: `none` models `"drinks": null` (or an absent
field), `some l` a list of full recipe objects. -/
abbrev SearchEnv := String → Option (List ApiResponse)

/-- The parsed JSON body of a filter-by-ingredient call: the outer `none`
models an empty response body (`len(response.content) == 0`), `some body`
a JSON body whose `drinks` field is `body`. -/
abbrev FilterEnv := String → Option (Option (List ApiResponse))

/-- `get_drink_by_name` from `drink_lookup.py`: `ValueError` when the
`drinks` field is null/absent; otherwise `drinks[0]` (an `IndexError` when
the list is empty) is normalized into a `CocktailRecipe`. -/
def get_drink_by_name (se : SearchEnv) (name : String) : Except PyErr CocktailRecipe :=
  match se name with
  | none => Except.error (PyErr.valueError ("Could not find a drink with name " ++ name))
  | some drinks =>
    match drinks.head? with
    | none => Except.error PyErr.indexError
    | some closest_match => normalize closest_match

/-- The expression `data.get("drinks")[i]["strDrink"]` for one stub `i`:
Python raises `KeyError` if the stub lacks the key; a null value is returned
as is (it raises only later, inside `get_drink_by_name`). -/
def extractName (stub : ApiResponse) : Except PyErr (Option String) :=
  match stub.find? (fun p => p.1 == "strDrink") with
  | none => Except.error (PyErr.keyError "strDrink")
  | some p => Except.ok p.2

/-- Resolving one extracted drink name through `get_drink_by_name`: a null
name raises a `TypeError` inside `"".join([EMPTY_DRINK_REQUEST, None])`. -/
def resolveName (se : SearchEnv) : Option String → Except PyErr CocktailRecipe
  | none => Except.error PyErr.typeError
  | some name => get_drink_by_name se name

/-- `get_drinks_based_on_ingredient` from `drink_lookup.py`: `ValueError`
on an empty response body or a null `drinks` field; otherwise the names of
the first `min(limit, len(drinks))` stubs are collected and each is resolved
through `get_drink_by_name`. -/
def get_drinks_based_on_ingredient (fe : FilterEnv) (se : SearchEnv)
    (ingredient : String) (limit : Nat) : Except PyErr (List CocktailRecipe) :=
  match fe ingredient with
  | none => Except.error (PyErr.valueError ("Could not find a drink with the ingredient " ++ ingredient))
  | some body =>
    match body with
    | none => Except.error (PyErr.valueError ("Could not find a drink with the ingredient " ++ ingredient))
    | some drinks =>
      match mapE extractName (drinks.take (min limit drinks.length)) with
      | Except.error e => Except.error e
      | Except.ok drink_names => mapE (resolveName se) drink_names

/-- A worksheet: 1-indexed rows and columns, unset cells hold `""`. -/
abbrev Grid := Nat → Nat → String

/-- `ws.update_cell(row, col, value)`. -/
def updateCell (g : Grid) (row col : Nat) (v : String) : Grid :=
  fun r c => if r = row ∧ c = col then v else g r c

/-- `write_separator_line` from `drink_recipe_maker.py`: fill columns
`1..width` of `separator_row_index` with the separator value. -/
def write_separator_line (g : Grid) (separator_row_index width : Nat) (separator : String) : Grid :=
  (List.range' 1 width).foldl (fun g col => updateCell g separator_row_index col separator) g

/-- `write_cocktail_header_return_next_row` from `drink_recipe_maker.py`,
restricted to an explicitly supplied `row` (the `row is None` path instead
calls `find_next_empty_row_index`): a width-3 separator when
`row >= top_margin_row = 3`, then the drink name in column 1. -/
def write_cocktail_header_return_next_row (cocktail_recipe : CocktailRecipe)
    (g : Grid) (row : Nat) : Grid × Nat :=
  let start := if 3 ≤ row then (write_separator_line g row 3 "0", row + 1) else (g, row)
  (updateCell start.1 start.2 1 (pyStr cocktail_recipe.name), start.2 + 1)

/-- `write_ingredient_header_return_next_row` from `drink_recipe_maker.py`,
restricted to an explicitly supplied `row`: a width-2 separator when
`row >= 3`, then the ingredient name in column 1. -/
def write_ingredient_header_return_next_row (ingredient : String)
    (g : Grid) (row : Nat) : Grid × Nat :=
  let start := if 3 ≤ row then (write_separator_line g row 2 "0", row + 1) else (g, row)
  (updateCell start.1 start.2 1 ingredient, start.2 + 1)

/-- `write_cocktail_instructions_return_next_row` from
`drink_recipe_maker.py`: header, then one row per instruction in column 2. -/
def write_cocktail_instructions_return_next_row (cocktail_recipe : CocktailRecipe)
    (g : Grid) (row : Nat) : Grid × Nat :=
  cocktail_recipe.instructions.foldl
    (fun p instruction => (updateCell p.1 p.2 2 instruction, p.2 + 1))
    (write_cocktail_header_return_next_row cocktail_recipe g row)

/-- `write_cocktail_ingredients_into_spreadsheet_return_next_row` from
`drink_recipe_maker.py`: header, then one row per ingredient entry
(ingredient in column 2, amount in column 3). -/
def write_cocktail_ingredients_into_spreadsheet_return_next_row
    (cocktail_recipe : CocktailRecipe) (g : Grid) (next_empty_row : Nat) : Grid × Nat :=
  cocktail_recipe.ingredients.foldl
    (fun p entry => (updateCell (updateCell p.1 p.2 2 entry.1) p.2 3 entry.2, p.2 + 1))
    (write_cocktail_header_return_next_row cocktail_recipe g next_empty_row)

/-- `write_cocktail_names_based_on_ingredient_return_next_row` from
`drink_recipe_maker.py`: ingredient header, then one row per looked-up
cocktail name in column 2; a lookup failure propagates. -/
def write_cocktail_names_based_on_ingredient_return_next_row (fe : FilterEnv) (se : SearchEnv)
    (ingredient : String) (g : Grid) (next_empty_row : Nat) (limit : Nat) :
    Except PyErr (Grid × Nat) :=
  let start := write_ingredient_header_return_next_row ingredient g next_empty_row
  match get_drinks_based_on_ingredient fe se ingredient limit with
  | Except.error e => Except.error e
  | Except.ok cocktails =>
    Except.ok (cocktails.foldl
      (fun p cocktail => (updateCell p.1 p.2 2 (pyStr cocktail.name), p.2 + 1)) start)

/-- `is_row_empty` from `drink_recipe_maker.py`: the first
`min_horizontal_empty_cells` cells of the row, left to right, are all
falsy (unset). -/
def is_row_empty (g : Grid) (row min_horizontal_empty_cells : Nat) : Bool :=
  (List.range' 1 min_horizontal_empty_cells).all (fun col => g row col == "")

/-- `find_next_empty_row_index` from `drink_recipe_maker.py`.  The source is
an unbounded `while True` search; here the remaining search depth is an
explicit `fuel` argument (`none` when the fuel runs out; any fuel larger than
the first hit is enough).  The inner check mirrors the source verbatim:
`for row_below in range(row + 1, empty_rows_below + 1)`, i.e. the rows
`row+1 .. empty_rows_below`, a range that is empty whenever
`row ≥ empty_rows_below`. -/
def find_next_empty_row_index (g : Grid) (empty_rows_below min_horizontal_empty_cells : Nat) :
    Nat → Nat → Option Nat
  | _, 0 => none
  | row, fuel + 1 =>
    if is_row_empty g row min_horizontal_empty_cells
        && (List.range' (row + 1) (empty_rows_below - row)).all
            (fun row_below => is_row_empty g row_below min_horizontal_empty_cells) then
      some row
    else
      find_next_empty_row_index g empty_rows_below min_horizontal_empty_cells (row + 1) fuel

/-! ## Helper lemmas -/

theorem length_bne_eq_decide_ne (t : String) : (t.length != 0) = decide (t ≠ "") := by
  obtain ⟨l⟩ := t
  cases l with
  | nil => rfl
  | cons c cs =>
    have hlen : (String.mk (c :: cs)).length = cs.length + 1 := rfl
    have hne : String.mk (c :: cs) ≠ "" := by
      intro h
      exact List.cons_ne_nil c cs (String.ext_iff.mp h)
    simp [hlen, hne]

theorem mem_filter_length_ne (l : List String)
    (h : "" ∈ l.filter (fun t => t.length != 0)) : False := by
  have := (List.mem_filter.mp h).2
  simp at this

/-! ## C1 -/

/-- C1: for every raw response whose instructions string contains CRLF, the
produced instructions list is the list of non-empty segments of splitting on
CRLF, in order, with no empty strings in the result; for every raw response
whose instructions string does not contain CRLF, the produced instructions
list is the verbatim split on the literal substring `". "`. -/
theorem C1_instruction_splitting (resp : ApiResponse) (raw : String) (r : CocktailRecipe)
    (hraw : dictGet resp "strInstructions" = some raw)
    (hok : normalize resp = Except.ok r) :
    (uses_line_breaks raw = true →
      r.instructions = (pyStringSplit raw "\r\n").filter (fun t => t ≠ "") ∧
      "" ∉ r.instructions) ∧
    (uses_line_breaks raw = false →
      r.instructions = pyStringSplit raw ". ") := by
  have hinstr : r.instructions = parseInstructions raw := by
    unfold normalize at hok
    by_cases hcheck : check_requirements resp
    · rw [if_pos hcheck, hraw] at hok
      cases hok
      rfl
    · rw [if_neg hcheck] at hok
      cases hok
  constructor
  · intro hlb
    have hfilter : parseInstructions raw =
        (pyStringSplit raw "\r\n").filter (fun t => t.length != 0) := by
      unfold parseInstructions
      rw [hlb]
      simp
    constructor
    · rw [hinstr, hfilter]
      congr 1
      funext t
      exact length_bne_eq_decide_ne t
    · rw [hinstr, hfilter]
      exact mem_filter_length_ne _
  · intro hlb
    rw [hinstr]
    unfold parseInstructions
    rw [hlb]
    simp

/-- A line-break delimited fixture with empty segments. -/
def respLineBreaks : ApiResponse :=
  [("strDrink", some "Tom Collins"), ("strGlass", some "Collins glass"),
   ("strInstructions", some "Do this\r\n\r\nDo that\r\n")]

/-- A sentence-delimited fixture with a trailing empty segment. -/
def respSentences : ApiResponse :=
  [("strDrink", some "Daiquiri"), ("strGlass", some "Cocktail glass"),
   ("strInstructions", some "Shake well. Strain. ")]

/-- Witness for C1: both branches at concrete fixtures. -/
theorem C1_instruction_splitting_witness :
    ((["Do this", "Do that"] : List String) =
        (pyStringSplit "Do this\r\n\r\nDo that\r\n" "\r\n").filter (fun t => t ≠ "") ∧
      "" ∉ (["Do this", "Do that"] : List String)) ∧
    (["Shake well", "Strain", ""] : List String) = pyStringSplit "Shake well. Strain. " ". " :=
  ⟨(C1_instruction_splitting respLineBreaks "Do this\r\n\r\nDo that\r\n"
      { name := some "Tom Collins", glass := some "Collins glass", ingredients := [],
        instructions := ["Do this", "Do that"] } rfl rfl).1 rfl,
   (C1_instruction_splitting respSentences "Shake well. Strain. "
      { name := some "Daiquiri", glass := some "Cocktail glass", ingredients := [],
        instructions := ["Shake well", "Strain", ""] } rfl rfl).2 rfl⟩

/-! ## C2 -/

/-- A response carrying only the three base keys: no numbered ingredient or
measure key is present at all. -/
def respOnlyBaseKeys : ApiResponse :=
  [("strDrink", some "Margarita"), ("strGlass", some "Cocktail glass"),
   ("strInstructions", some "Shake. Serve")]

/-- C2 (code bug): the claim and the source docstring require all fifteen
numbered ingredient and measure keys, but `check_requirements` discards the
results of its two `set.union` calls, so a response with only the three base
keys is accepted and `normalize` succeeds instead of failing with the
malformed-response error. -/
theorem C2_numbered_keys_not_checked :
    hasKey respOnlyBaseKeys "strIngredient1" = false ∧
    hasKey respOnlyBaseKeys "strMeasure1" = false ∧
    check_requirements respOnlyBaseKeys = true ∧
    normalize respOnlyBaseKeys = Except.ok
      { name := some "Margarita", glass := some "Cocktail glass",
        ingredients := [], instructions := ["Shake", "Serve"] } :=
  ⟨rfl, rfl, rfl, rfl⟩

/-! ## C3 -/

/-- The entry the spec's ingredient-extraction rule produces for slot `n`,
as amended: a slot contributes exactly when its ingredient value is present
(non-null), the amount falls back to `"To Taste"` only when the amount value
is absent (null), and the stored amount is stripped. -/
def slotEntry (resp : ApiResponse) (n : Nat) : Option (String × String) :=
  (dictGet resp (ingredientKey n)).map (fun ingredient =>
    (ingredient,
      pyStrip (match dictGet resp (measureKey n) with
        | none => "To Taste"
        | some a => a)))

/-- The amended spec-side description of the full ingredients mapping:
the present slots, in slot order 1..15. -/
def specIngredientEntries (resp : ApiResponse) : List (String × String) :=
  (List.range' 1 15).filterMap (slotEntry resp)

/-- A well-formed response (all 33 required keys present) whose slot 1 has a
present-but-empty ingredient and a present-but-blank amount. -/
def respEmptySlotValues : ApiResponse :=
  [("strDrink", some "Margarita"), ("strGlass", some "Cocktail glass"),
   ("strInstructions", some "Shake. Serve"),
   ("strIngredient1", some ""), ("strMeasure1", some " ")]
  ++ (List.range' 2 14).map (fun n => (ingredientKey n, (none : Option String)))
  ++ (List.range' 2 14).map (fun n => (measureKey n, (none : Option String)))

/-- Counterexample for C3: a well-formed raw response (every key of the
33-key required set is present) for which the constructed ingredients
mapping contains an entry whose key is the empty-string ingredient and whose
amount is the empty string. -/
theorem C3_counterexample :
    ((List.range' 1 15).all
      (fun n => hasKey respEmptySlotValues (ingredientKey n)
        && hasKey respEmptySlotValues (measureKey n)) = true) ∧
    hasKey respEmptySlotValues "strDrink" = true ∧
    hasKey respEmptySlotValues "strGlass" = true ∧
    hasKey respEmptySlotValues "strInstructions" = true ∧
    dictGet respEmptySlotValues (ingredientKey 1) = some "" ∧
    normalize respEmptySlotValues = Except.ok
      { name := some "Margarita", glass := some "Cocktail glass",
        ingredients := [("", "")], instructions := ["Shake", "Serve"] } := by
  refine ⟨?_, rfl, rfl, rfl, rfl, rfl⟩
  decide

theorem dictInsert_of_not_mem (d : List (String × String)) (k v : String)
    (h : k ∉ d.map Prod.fst) : dictInsert d k v = d ++ [(k, v)] := by
  unfold dictInsert
  rw [if_neg]
  intro hany
  rcases List.any_eq_true.mp hany with ⟨p, hp, he⟩
  exact h (List.mem_map.mpr ⟨p, hp, beq_iff_eq.mp he⟩)

theorem parse_slots_eq_filterMap (resp : ApiResponse) :
    ∀ (ns : List Nat) (acc : List (String × String)),
      (acc.map Prod.fst ++ ns.filterMap (fun n => dictGet resp (ingredientKey n))).Nodup →
      parse_slots resp ns acc = acc ++ ns.filterMap (slotEntry resp) := by
  intro ns
  induction ns with
  | nil =>
    intro acc _
    simp [parse_slots]
  | cons n ns ih =>
    intro acc hnodup
    rw [List.filterMap_cons] at hnodup
    unfold parse_slots
    rw [List.filterMap_cons]
    cases hing : dictGet resp (ingredientKey n) with
    | none =>
      rw [hing] at hnodup
      simp only [slotEntry, hing, Option.map_none]
      exact ih acc hnodup
    | some ingredient =>
      rw [hing] at hnodup
      have hdisj := (List.nodup_append.mp hnodup).2.2
      have hnotmem : ingredient ∉ acc.map Prod.fst := by
        intro hmem
        exact hdisj hmem (List.mem_cons_self _ _)
      simp only [slotEntry, hing, Option.map_some]
      rw [dictInsert_of_not_mem _ _ _ hnotmem]
      rw [ih (acc ++ [(ingredient, _)]) ?_]
      · simp
      · simp only [List.map_append, List.map_cons, List.map_nil]
        have : acc.map Prod.fst ++ [ingredient] ++
            ns.filterMap (fun n => dictGet resp (ingredientKey n)) =
            acc.map Prod.fst ++ ingredient ::
              ns.filterMap (fun n => dictGet resp (ingredientKey n)) := by
          simp
        rw [this]
        exact hnodup

/-- C3, amended: the constructed ingredients mapping keeps an entry for
exactly the numbered slots whose ingredient value is present (non-null) —
a present-but-empty ingredient is kept, producing an empty-string key — and
maps each kept ingredient to its whitespace-stripped amount (which may be the
empty string when the amount value is present but blank), substituting the
sentinel `"To Taste"` only when the amount value is absent (null), in slot
order 1..15 (stated for responses whose present ingredient names are
pairwise distinct; a duplicate name would overwrite the earlier entry). -/
theorem C3_amended_ingredient_entries (resp : ApiResponse)
    (hnodup : ((List.range' 1 15).filterMap
      (fun n => dictGet resp (ingredientKey n))).Nodup) :
    parse_ingredients resp = specIngredientEntries resp := by
  unfold parse_ingredients specIngredientEntries
  rw [parse_slots_eq_filterMap resp (List.range' 1 15) [] (by simpa using hnodup)]
  simp

/-- A well-formed response with two present slots: one with a stripped
amount, one with a null amount. -/
def respTwoSlots : ApiResponse :=
  [("strDrink", some "Mojito"), ("strGlass", some "Highball glass"),
   ("strInstructions", some "Muddle. Serve"),
   ("strIngredient1", some "Light rum"), ("strMeasure1", some " 2-3 oz "),
   ("strIngredient2", some "Soda water")]

/-- Witness for the amended C3 at a concrete fixture. -/
theorem C3_amended_ingredient_entries_witness :
    parse_ingredients respTwoSlots = specIngredientEntries respTwoSlots :=
  C3_amended_ingredient_entries respTwoSlots (by decide)

/-! ## C4 -/

/-- A grid whose row 2 is non-empty and whose other rows are fully empty. -/
def gridRowTwoUsed : Grid :=
  fun r c => if r = 2 ∧ c = 1 then "x" else ""

/-- C4 (code bug): the source docstring promises at least `empty_rows_below`
empty rows below the returned row, but the inner loop iterates over
`range(row + 1, empty_rows_below + 1)`, which is empty once
`row ≥ empty_rows_below`; on a grid whose row 2 is occupied, the search with
`empty_rows_below = 1` returns row 1 even though row 1 is followed by a
non-empty row (the least row satisfying the claimed property is 3). -/
theorem C4_trailing_rows_not_checked :
    find_next_empty_row_index gridRowTwoUsed 1 3 1 10 = some 1 ∧
    is_row_empty gridRowTwoUsed 1 3 = true ∧
    is_row_empty gridRowTwoUsed 2 3 = false ∧
    is_row_empty gridRowTwoUsed 3 3 = true ∧
    is_row_empty gridRowTwoUsed 4 3 = true := by
  decide

/-! ## C5 -/

/-- A search environment whose result collection is present but empty. -/
def searchEnvEmptyList : SearchEnv := fun _ => some []

/-- Counterexample for C5: on a response whose `drinks` collection is present
but empty, `get_drink_by_name` fails with an `IndexError` from `drinks[0]`,
not with the `NotFound` error (`ValueError`). -/
theorem C5_counterexample :
    get_drink_by_name searchEnvEmptyList "Margarita" = Except.error PyErr.indexError ∧
    get_drink_by_name searchEnvEmptyList "Margarita" ≠
      Except.error (PyErr.valueError "Could not find a drink with name Margarita") := by
  refine ⟨rfl, ?_⟩
  rw [show get_drink_by_name searchEnvEmptyList "Margarita" = Except.error PyErr.indexError
    from rfl]
  simp

/-- C5, amended: `get_drink_by_name` fails with the `NotFound` error
(`ValueError`) exactly when the result collection is absent (null); when the
collection is present but empty it fails with an `IndexError` instead of
`NotFound`; when the collection is non-empty it returns the record normalized
from the first entry in the order returned by the remote source. -/
theorem C5_amended_lookup_by_name (se : SearchEnv) (name : String) :
    (se name = none →
      get_drink_by_name se name =
        Except.error (PyErr.valueError ("Could not find a drink with name " ++ name))) ∧
    (se name = some [] →
      get_drink_by_name se name = Except.error PyErr.indexError) ∧
    (∀ d ds, se name = some (d :: ds) →
      get_drink_by_name se name = normalize d) := by
  refine ⟨?_, ?_, ?_⟩
  · intro h
    unfold get_drink_by_name
    rw [h]
  · intro h
    unfold get_drink_by_name
    rw [h]
    rfl
  · intro d ds h
    unfold get_drink_by_name
    rw [h]
    rfl

/-- A search environment with one full result entry. -/
def searchEnvOneResult : SearchEnv := fun _ => some [respOnlyBaseKeys]

/-- Witness for the amended C5: all three cases at concrete environments. -/
theorem C5_amended_lookup_by_name_witness :
    get_drink_by_name (fun _ => none) "Margarita" =
      Except.error (PyErr.valueError ("Could not find a drink with name " ++ "Margarita")) ∧
    get_drink_by_name searchEnvEmptyList "Mojito" = Except.error PyErr.indexError ∧
    get_drink_by_name searchEnvOneResult "Margarita" = normalize respOnlyBaseKeys :=
  ⟨(C5_amended_lookup_by_name (fun _ => none) "Margarita").1 rfl,
   (C5_amended_lookup_by_name searchEnvEmptyList "Mojito").2.1 rfl,
   (C5_amended_lookup_by_name searchEnvOneResult "Margarita").2.2 respOnlyBaseKeys [] rfl⟩

/-! ## Grid helper lemmas -/

theorem updateCell_ne (g : Grid) (row col : Nat) (v : String) (r c : Nat)
    (h : r ≠ row ∨ c ≠ col) : updateCell g row col v r c = g r c := by
  unfold updateCell
  rw [if_neg]
  rintro ⟨rfl, rfl⟩
  rcases h with h | h <;> exact h rfl

theorem updateCell_self (g : Grid) (row col : Nat) (v : String) :
    updateCell g row col v row col = v := by
  simp [updateCell]

theorem foldl_updateCell_ne_row (s : String) (row r c : Nat) (h : r ≠ row) :
    ∀ (cols : List Nat) (g : Grid),
      (cols.foldl (fun g col => updateCell g row col s) g) r c = g r c := by
  intro cols
  induction cols with
  | nil => intro g; rfl
  | cons col cols ih =>
    intro g
    rw [List.foldl_cons, ih]
    exact updateCell_ne g row col s r c (Or.inl h)

theorem write_separator_line_ne_row (g : Grid) (row width : Nat) (s : String)
    (r c : Nat) (h : r ≠ row) : write_separator_line g row width s r c = g r c :=
  foldl_updateCell_ne_row s row r c h _ g

theorem write_separator_line_three (g : Grid) (row : Nat) (s : String) :
    write_separator_line g row 3 s =
      updateCell (updateCell (updateCell g row 1 s) row 2 s) row 3 s := by
  rfl

theorem write_separator_line_two (g : Grid) (row : Nat) (s : String) :
    write_separator_line g row 2 s = updateCell (updateCell g row 1 s) row 2 s := by
  rfl

theorem header_next_row (rec : CocktailRecipe) (g : Grid) (row : Nat) :
    (write_cocktail_header_return_next_row rec g row).2 =
      row + (if 3 ≤ row then 2 else 1) := by
  unfold write_cocktail_header_return_next_row
  by_cases h : 3 ≤ row <;> simp [h]

theorem header_unchanged (rec : CocktailRecipe) (g : Grid) (row : Nat) (r c : Nat)
    (h : r < row ∨ row + (if 3 ≤ row then 2 else 1) ≤ r) :
    (write_cocktail_header_return_next_row rec g row).1 r c = g r c := by
  unfold write_cocktail_header_return_next_row
  by_cases h3 : 3 ≤ row
  · rw [if_pos h3] at h
    simp only [if_pos h3]
    rw [updateCell_ne _ _ _ _ _ _ (Or.inl (by omega))]
    exact write_separator_line_ne_row _ _ _ _ _ _ (by omega)
  · rw [if_neg h3] at h
    simp only [if_neg h3]
    exact updateCell_ne _ _ _ _ _ _ (Or.inl (by omega))

theorem ingredient_header_next_row (ingredient : String) (g : Grid) (row : Nat) :
    (write_ingredient_header_return_next_row ingredient g row).2 =
      row + (if 3 ≤ row then 2 else 1) := by
  unfold write_ingredient_header_return_next_row
  by_cases h : 3 ≤ row <;> simp [h]

theorem ingredient_header_unchanged (ingredient : String) (g : Grid) (row : Nat)
    (r c : Nat) (h : r < row ∨ row + (if 3 ≤ row then 2 else 1) ≤ r) :
    (write_ingredient_header_return_next_row ingredient g row).1 r c = g r c := by
  unfold write_ingredient_header_return_next_row
  by_cases h3 : 3 ≤ row
  · rw [if_pos h3] at h
    simp only [if_pos h3]
    rw [updateCell_ne _ _ _ _ _ _ (Or.inl (by omega))]
    exact write_separator_line_ne_row _ _ _ _ _ _ (by omega)
  · rw [if_neg h3] at h
    simp only [if_neg h3]
    exact updateCell_ne _ _ _ _ _ _ (Or.inl (by omega))

theorem rowFold_spec {α : Type} (f : Grid → Nat → α → Grid)
    (hf : ∀ (g : Grid) (cur : Nat) (a : α) (r c : Nat), r ≠ cur → f g cur a r c = g r c) :
    ∀ (items : List α) (g : Grid) (cur : Nat),
      ((items.foldl (fun p a => (f p.1 p.2 a, p.2 + 1)) (g, cur)).2 = cur + items.length) ∧
      (∀ r c, r < cur ∨ cur + items.length ≤ r →
        (items.foldl (fun p a => (f p.1 p.2 a, p.2 + 1)) (g, cur)).1 r c = g r c) := by
  intro items
  induction items with
  | nil =>
    intro g cur
    exact ⟨rfl, fun r c _ => rfl⟩
  | cons a as ih =>
    intro g cur
    rw [List.foldl_cons]
    constructor
    · rw [(ih (f g cur a) (cur + 1)).1]
      simp
      omega
    · intro r c hr
      rw [(ih (f g cur a) (cur + 1)).2 r c (by simp at hr ⊢; omega)]
      exact hf g cur a r c (by simp at hr; omega)

/-! ## C6 -/

/-- The all-unset grid. -/
def emptyGrid : Grid := fun _ _ => ""

/-- A three-ingredient record. -/
def mojitoRecipe : CocktailRecipe :=
  { name := some "Mojito", glass := some "Highball glass",
    ingredients := [("Rum", "2 oz"), ("Lime", "1"), ("Mint", "5 leaves")],
    instructions := ["Mix"] }

/-- C6: the header+ingredient-block write for a 3-ingredient record starting
at row 5 writes the separator sentinel into row 5 (columns 1..3), the name
into row 6 column 1, the three ingredient/amount pairs into rows 7..9
(columns 2 and 3), and returns 10; and in general the header writes a
separator exactly when the start row is not among the two reserved rows,
returning startRow+2 with a separator and startRow+1 without. -/
theorem C6_header_and_ingredient_block :
    ((write_cocktail_ingredients_into_spreadsheet_return_next_row mojitoRecipe emptyGrid 5).2
        = 10 ∧
      (write_cocktail_ingredients_into_spreadsheet_return_next_row mojitoRecipe emptyGrid 5).1
        5 1 = "0" ∧
      (write_cocktail_ingredients_into_spreadsheet_return_next_row mojitoRecipe emptyGrid 5).1
        5 2 = "0" ∧
      (write_cocktail_ingredients_into_spreadsheet_return_next_row mojitoRecipe emptyGrid 5).1
        5 3 = "0" ∧
      (write_cocktail_ingredients_into_spreadsheet_return_next_row mojitoRecipe emptyGrid 5).1
        6 1 = "Mojito" ∧
      (write_cocktail_ingredients_into_spreadsheet_return_next_row mojitoRecipe emptyGrid 5).1
        7 2 = "Rum" ∧
      (write_cocktail_ingredients_into_spreadsheet_return_next_row mojitoRecipe emptyGrid 5).1
        7 3 = "2 oz" ∧
      (write_cocktail_ingredients_into_spreadsheet_return_next_row mojitoRecipe emptyGrid 5).1
        8 2 = "Lime" ∧
      (write_cocktail_ingredients_into_spreadsheet_return_next_row mojitoRecipe emptyGrid 5).1
        8 3 = "1" ∧
      (write_cocktail_ingredients_into_spreadsheet_return_next_row mojitoRecipe emptyGrid 5).1
        9 2 = "Mint" ∧
      (write_cocktail_ingredients_into_spreadsheet_return_next_row mojitoRecipe emptyGrid 5).1
        9 3 = "5 leaves") ∧
    (∀ (rec : CocktailRecipe) (g : Grid) (row : Nat), 1 ≤ row →
      (¬(row = 1 ∨ row = 2) →
        (write_cocktail_header_return_next_row rec g row).2 = row + 2 ∧
        (write_cocktail_header_return_next_row rec g row).1 row 1 = "0" ∧
        (write_cocktail_header_return_next_row rec g row).1 row 2 = "0" ∧
        (write_cocktail_header_return_next_row rec g row).1 row 3 = "0") ∧
      ((row = 1 ∨ row = 2) →
        (write_cocktail_header_return_next_row rec g row).2 = row + 1 ∧
        ∀ c, c ≠ 1 → (write_cocktail_header_return_next_row rec g row).1 row c = g row c)) := by
  constructor
  · refine ⟨by decide, by decide, by decide, by decide, by decide, by decide, by decide,
      by decide, by decide, by decide, by decide⟩
  · intro rec g row hrow
    constructor
    · intro hres
      have h3 : 3 ≤ row := by omega
      have hnext := header_next_row rec g row
      rw [if_pos h3] at hnext
      refine ⟨hnext, ?_, ?_, ?_⟩ <;>
        · unfold write_cocktail_header_return_next_row
          simp only [if_pos h3]
          rw [updateCell_ne _ _ _ _ _ _ (Or.inl (by omega)), write_separator_line_three]
          simp [updateCell]
    · intro hres
      have h3 : ¬ 3 ≤ row := by omega
      have hnext := header_next_row rec g row
      rw [if_neg h3] at hnext
      refine ⟨hnext, ?_⟩
      intro c hc
      unfold write_cocktail_header_return_next_row
      simp only [if_neg h3]
      exact updateCell_ne _ _ _ _ _ _ (Or.inr hc)

/-- Witness for C6: the general header part applied at row 5 and at row 2. -/
theorem C6_header_and_ingredient_block_witness :
    ((write_cocktail_header_return_next_row mojitoRecipe emptyGrid 5).2 = 5 + 2 ∧
      (write_cocktail_header_return_next_row mojitoRecipe emptyGrid 5).1 5 1 = "0" ∧
      (write_cocktail_header_return_next_row mojitoRecipe emptyGrid 5).1 5 2 = "0" ∧
      (write_cocktail_header_return_next_row mojitoRecipe emptyGrid 5).1 5 3 = "0") ∧
    (write_cocktail_header_return_next_row mojitoRecipe emptyGrid 2).2 = 2 + 1 :=
  ⟨(C6_header_and_ingredient_block.2 mojitoRecipe emptyGrid 5 (by norm_num)).1
      (by norm_num),
   ((C6_header_and_ingredient_block.2 mojitoRecipe emptyGrid 2 (by norm_num)).2
      (Or.inr rfl)).1⟩

/-! ## C7 -/

theorem string_foldl_append_shift :
    ∀ (l : List String) (init : String),
      l.foldl (fun a b => a ++ b) init = init ++ l.foldl (fun a b => a ++ b) "" := by
  intro l
  induction l with
  | nil =>
    intro init
    simp
  | cons s l ih =>
    intro init
    rw [List.foldl_cons, List.foldl_cons, ih (init ++ s), ih ("" ++ s),
      String.empty_append, String.append_assoc]

theorem string_join_cons (s : String) (l : List String) :
    String.join (s :: l) = s ++ String.join l := by
  unfold String.join
  rw [List.foldl_cons, string_foldl_append_shift l ("" ++ s), String.empty_append]

theorem foldl_append_eq_join {α : Type} (f : α → String) :
    ∀ (l : List α) (init : String),
      l.foldl (fun acc a => acc ++ f a) init = init ++ String.join (l.map f) := by
  intro l
  induction l with
  | nil =>
    intro init
    simp [String.join]
  | cons a as ih =>
    intro init
    rw [List.foldl_cons, List.map_cons, string_join_cons, ih (init ++ f a),
      String.append_assoc]

/-- The specification's canonical rendering: a name line, an `Ingredients:`
block with one line per entry in insertion order, and an `Instructions:`
block with one line per step, prefixed by its 1-based index and a closing
parenthesis, in stored order. -/
def specRender (r : CocktailRecipe) : String :=
  "Name: " ++ pyStr r.name ++ "\n" ++
    ("Ingredients:\n" ++
      String.join (r.ingredients.map (fun p => "- " ++ p.1 ++ " : " ++ p.2 ++ "\n"))) ++
    ("Instructions:\n" ++
      String.join (r.instructions.enum.map
        (fun p => toString (p.1 + 1) ++ ") " ++ p.2 ++ "\n")))

/-- C7: for every constructed record the canonical string rendering is
byte-exact: the name line, then `Ingredients:` followed by one line per
ingredient entry in insertion order, then `Instructions:` followed by one
line per step prefixed by its 1-based index and a closing parenthesis, in
stored order. -/
theorem C7_canonical_rendering (r : CocktailRecipe) : strRecipe r = specRender r := by
  unfold strRecipe specRender
  have hing : (fun (acc : String) (p : String × String) =>
      acc ++ "- " ++ p.1 ++ " : " ++ p.2 ++ "\n") =
      (fun (acc : String) (p : String × String) =>
        acc ++ ("- " ++ p.1 ++ " : " ++ p.2 ++ "\n")) := by
    funext acc p
    simp [String.append_assoc]
  have hins : (fun (acc : String) (p : Nat × String) =>
      acc ++ toString (p.1 + 1) ++ ") " ++ p.2 ++ "\n") =
      (fun (acc : String) (p : Nat × String) =>
        acc ++ (toString (p.1 + 1) ++ ") " ++ p.2 ++ "\n")) := by
    funext acc p
    simp [String.append_assoc]
  rw [hing, hins, foldl_append_eq_join, foldl_append_eq_join,
    string_join_cons, string_join_cons, string_join_cons]
  show _ = _ ++ _ ++ _
  rw [String.join]
  simp [String.append_assoc, show String.join ([] : List String) = "" from rfl,
    String.append_empty]

/-! ## C8 -/

theorem mapE_length {α β : Type} (f : α → Except PyErr β) :
    ∀ (l : List α) (res : List β), mapE f l = Except.ok res → res.length = l.length := by
  intro l
  induction l with
  | nil =>
    intro res h
    cases h
    rfl
  | cons a as ih =>
    intro res h
    unfold mapE at h
    cases hfa : f a with
    | error e => rw [hfa] at h; cases h
    | ok b =>
      rw [hfa] at h
      cases hrest : mapE f as with
      | error e => rw [hrest] at h; cases h
      | ok bs =>
        rw [hrest] at h
        cases h
        simp [ih bs hrest]

theorem mapE_resolveName_map_some (se : SearchEnv) :
    ∀ (names : List String),
      mapE (resolveName se) (names.map some) = mapE (get_drink_by_name se) names := by
  intro names
  induction names with
  | nil => rfl
  | cons name names ih =>
    rw [List.map_cons]
    unfold mapE
    rw [show resolveName se (some name) = get_drink_by_name se name from rfl, ih]

/-- C8: when the filter response carries a non-empty collection of `n` name
stubs and the limit is positive, the lookup-by-ingredient returns exactly
`min(limit, n)` records: it takes the names of the first `min(limit, n)`
stubs in the returned order and resolves each through the name lookup,
preserving that order. -/
theorem C8_lookup_by_ingredient_resolves_names (fe : FilterEnv) (se : SearchEnv)
    (ingredient : String) (limit : Nat) (drinks : List ApiResponse)
    (names : List String) (recs : List CocktailRecipe)
    (hfe : fe ingredient = some (some drinks))
    (hne : drinks ≠ [])
    (hpos : 0 < limit)
    (hnames : mapE extractName (drinks.take (min limit drinks.length)) =
      Except.ok (names.map some))
    (hrecs : mapE (get_drink_by_name se) names = Except.ok recs) :
    get_drinks_based_on_ingredient fe se ingredient limit = Except.ok recs ∧
    recs.length = min limit drinks.length := by
  constructor
  · unfold get_drinks_based_on_ingredient
    rw [hfe]
    show (match mapE extractName (drinks.take (min limit drinks.length)) with
      | Except.error e => Except.error e
      | Except.ok drink_names => mapE (resolveName se) drink_names) = _
    rw [hnames]
    show mapE (resolveName se) (names.map some) = _
    rw [mapE_resolveName_map_some se names, hrecs]
  · have h1 : recs.length = names.length := mapE_length _ names recs hrecs
    have h2 : (names.map some).length = (drinks.take (min limit drinks.length)).length :=
      mapE_length _ _ _ hnames
    rw [List.length_map, List.length_take] at h2
    rw [h1, h2]
    exact Nat.min_eq_left (Nat.min_le_right _ _)

/-- A filter environment returning three name stubs. -/
def filterEnvThreeStubs : FilterEnv :=
  fun _ => some (some [[("strDrink", some "A")], [("strDrink", some "B")],
    [("strDrink", some "C")]])

/-- Witness for C8: three stubs, limit 2, every name lookup resolving through
`searchEnvOneResult`. -/
theorem C8_lookup_by_ingredient_resolves_names_witness :
    (∃ r : CocktailRecipe,
      normalize respOnlyBaseKeys = Except.ok r ∧
      get_drinks_based_on_ingredient filterEnvThreeStubs searchEnvOneResult "Gin" 2 =
        Except.ok [r, r] ∧
      ([r, r] : List CocktailRecipe).length = min 2 3) :=
  ⟨{ name := some "Margarita", glass := some "Cocktail glass",
     ingredients := [], instructions := ["Shake", "Serve"] },
   rfl,
   (C8_lookup_by_ingredient_resolves_names filterEnvThreeStubs searchEnvOneResult "Gin" 2
     [[("strDrink", some "A")], [("strDrink", some "B")], [("strDrink", some "C")]]
     ["A", "B"] _
     rfl (by decide) (by norm_num) rfl rfl).1,
   (C8_lookup_by_ingredient_resolves_names filterEnvThreeStubs searchEnvOneResult "Gin" 2
     [[("strDrink", some "A")], [("strDrink", some "B")], [("strDrink", some "C")]]
     ["A", "B"] _
     rfl (by decide) (by norm_num) rfl rfl).2⟩

/-! ## C9 -/

/-- Counterexample for C9: when the filter call's result collection is
present but empty, `get_drinks_based_on_ingredient` does not fail with
`NotFound` — it silently returns the empty sequence. -/
theorem C9_counterexample :
    get_drinks_based_on_ingredient (fun _ => some (some [])) (fun _ => none) "Gin" 5 =
      Except.ok [] := rfl

/-- C9, amended: `get_drinks_based_on_ingredient` fails with the `NotFound`
error when the remote filter call returns an empty response body or a
null/absent result collection; but when the result collection is present and
empty it returns the empty sequence silently, without an error. -/
theorem C9_amended_not_found (fe : FilterEnv) (se : SearchEnv)
    (ingredient : String) (limit : Nat) :
    (fe ingredient = none →
      get_drinks_based_on_ingredient fe se ingredient limit =
        Except.error
          (PyErr.valueError ("Could not find a drink with the ingredient " ++ ingredient))) ∧
    (fe ingredient = some none →
      get_drinks_based_on_ingredient fe se ingredient limit =
        Except.error
          (PyErr.valueError ("Could not find a drink with the ingredient " ++ ingredient))) ∧
    (fe ingredient = some (some []) →
      get_drinks_based_on_ingredient fe se ingredient limit = Except.ok []) := by
  refine ⟨?_, ?_, ?_⟩
  · intro h
    unfold get_drinks_based_on_ingredient
    rw [h]
  · intro h
    unfold get_drinks_based_on_ingredient
    rw [h]
  · intro h
    unfold get_drinks_based_on_ingredient
    rw [h]
    show (match mapE extractName (List.take (min limit 0) []) with
      | Except.error e => Except.error e
      | Except.ok drink_names => mapE (resolveName se) drink_names) = _
    rw [List.take_nil]
    rfl

/-- Witness for the amended C9: all three cases at concrete environments. -/
theorem C9_amended_not_found_witness :
    get_drinks_based_on_ingredient (fun _ => none) (fun _ => none) "Gin" 5 =
      Except.error
        (PyErr.valueError ("Could not find a drink with the ingredient " ++ "Gin")) ∧
    get_drinks_based_on_ingredient (fun _ => some none) (fun _ => none) "Rum" 5 =
      Except.error
        (PyErr.valueError ("Could not find a drink with the ingredient " ++ "Rum")) ∧
    get_drinks_based_on_ingredient (fun _ => some (some [])) (fun _ => none) "Tea" 5 =
      Except.ok [] :=
  ⟨(C9_amended_not_found (fun _ => none) (fun _ => none) "Gin" 5).1 rfl,
   (C9_amended_not_found (fun _ => some none) (fun _ => none) "Rum" 5).2.1 rfl,
   (C9_amended_not_found (fun _ => some (some [])) (fun _ => none) "Tea" 5).2.2 rfl⟩

/-! ## C10 -/

/-- All cells in rows outside `[lo, hi)` are unchanged between `g` and
`gNew`: the write landed entirely inside the claimed row window. -/
abbrev gridUnchangedOutside (g gNew : Grid) (lo hi : Nat) : Prop :=
  ∀ r c, r < lo ∨ hi ≤ r → gNew r c = g r c

/-- C10: for every record and explicitly supplied start row `r ≥ 1`, each
writer returns a cursor strictly greater than `r`, equal to `r` plus the
exact number of rows it wrote (one header row, an optional separator row
when `r` is past the reserved margin, and one row per item), and touches no
row outside `[r, returned cursor)`, so threading the returned cursor never
rewrites or skips rows. -/
theorem C10_cursor_threading (rec : CocktailRecipe) (g : Grid) (r : Nat) (hr : 1 ≤ r) :
    ((write_cocktail_header_return_next_row rec g r).2 = r + (if 3 ≤ r then 2 else 1) ∧
      r < (write_cocktail_header_return_next_row rec g r).2 ∧
      gridUnchangedOutside g (write_cocktail_header_return_next_row rec g r).1 r
        (write_cocktail_header_return_next_row rec g r).2) ∧
    ((write_cocktail_instructions_return_next_row rec g r).2 =
        r + (if 3 ≤ r then 2 else 1) + rec.instructions.length ∧
      r < (write_cocktail_instructions_return_next_row rec g r).2 ∧
      gridUnchangedOutside g (write_cocktail_instructions_return_next_row rec g r).1 r
        (write_cocktail_instructions_return_next_row rec g r).2) ∧
    ((write_cocktail_ingredients_into_spreadsheet_return_next_row rec g r).2 =
        r + (if 3 ≤ r then 2 else 1) + rec.ingredients.length ∧
      r < (write_cocktail_ingredients_into_spreadsheet_return_next_row rec g r).2 ∧
      gridUnchangedOutside g
        (write_cocktail_ingredients_into_spreadsheet_return_next_row rec g r).1 r
        (write_cocktail_ingredients_into_spreadsheet_return_next_row rec g r).2) ∧
    (∀ (fe : FilterEnv) (se : SearchEnv) (ingredient : String) (limit : Nat)
        (ds : List CocktailRecipe),
      get_drinks_based_on_ingredient fe se ingredient limit = Except.ok ds →
      ∃ out : Grid × Nat,
        write_cocktail_names_based_on_ingredient_return_next_row fe se ingredient g r limit
          = Except.ok out ∧
        out.2 = r + (if 3 ≤ r then 2 else 1) + ds.length ∧
        r < out.2 ∧
        gridUnchangedOutside g out.1 r out.2) := by
  have hk1 : 1 ≤ (if 3 ≤ r then 2 else 1) := by
    by_cases h3 : 3 ≤ r <;> simp [h3]
  have hhdr2 := header_next_row rec g r
  refine ⟨⟨hhdr2, by omega, ?_⟩, ?_, ?_, ?_⟩
  · intro rr c hout
    exact header_unchanged rec g r rr c (by omega)
  · have hfold := rowFold_spec (fun g cur a => updateCell g cur 2 a)
      (fun g cur a rr c h => updateCell_ne g cur 2 a rr c (Or.inl h))
      rec.instructions (write_cocktail_header_return_next_row rec g r).1
      (write_cocktail_header_return_next_row rec g r).2
    have h2 : (write_cocktail_instructions_return_next_row rec g r).2 =
        (write_cocktail_header_return_next_row rec g r).2 + rec.instructions.length :=
      hfold.1
    refine ⟨by omega, by omega, ?_⟩
    intro rr c hout
    have h4 : (write_cocktail_instructions_return_next_row rec g r).1 rr c =
        (write_cocktail_header_return_next_row rec g r).1 rr c :=
      hfold.2 rr c (by omega)
    rw [h4]
    exact header_unchanged rec g r rr c (by omega)
  · have hfI : ∀ (g : Grid) (cur : Nat) (p : String × String) (rr c : Nat), rr ≠ cur →
        updateCell (updateCell g cur 2 p.1) cur 3 p.2 rr c = g rr c := by
      intro g cur p rr c h
      rw [updateCell_ne _ _ _ _ _ _ (Or.inl h), updateCell_ne _ _ _ _ _ _ (Or.inl h)]
    have hfold := rowFold_spec
      (fun g cur p => updateCell (updateCell g cur 2 p.1) cur 3 p.2) hfI
      rec.ingredients (write_cocktail_header_return_next_row rec g r).1
      (write_cocktail_header_return_next_row rec g r).2
    have h2 : (write_cocktail_ingredients_into_spreadsheet_return_next_row rec g r).2 =
        (write_cocktail_header_return_next_row rec g r).2 + rec.ingredients.length :=
      hfold.1
    refine ⟨by omega, by omega, ?_⟩
    intro rr c hout
    have h4 : (write_cocktail_ingredients_into_spreadsheet_return_next_row rec g r).1 rr c =
        (write_cocktail_header_return_next_row rec g r).1 rr c :=
      hfold.2 rr c (by omega)
    rw [h4]
    exact header_unchanged rec g r rr c (by omega)
  · intro fe se ingredient limit ds hok
    have hih2 := ingredient_header_next_row ingredient g r
    have hfold := rowFold_spec (fun g cur c => updateCell g cur 2 (pyStr c.name))
      (fun g cur cocktail rr c h => updateCell_ne _ _ _ _ _ _ (Or.inl h)) ds
      (write_ingredient_header_return_next_row ingredient g r).1
      (write_ingredient_header_return_next_row ingredient g r).2
    refine ⟨ds.foldl
        (fun p cocktail => (updateCell p.1 p.2 2 (pyStr cocktail.name), p.2 + 1))
        (write_ingredient_header_return_next_row ingredient g r), ?_, ?_, ?_, ?_⟩
    · unfold write_cocktail_names_based_on_ingredient_return_next_row
      rw [hok]
    · have h2 : (ds.foldl
          (fun p cocktail => (updateCell p.1 p.2 2 (pyStr cocktail.name), p.2 + 1))
          (write_ingredient_header_return_next_row ingredient g r)).2 =
          (write_ingredient_header_return_next_row ingredient g r).2 + ds.length :=
        hfold.1
      omega
    · have h2 : (ds.foldl
          (fun p cocktail => (updateCell p.1 p.2 2 (pyStr cocktail.name), p.2 + 1))
          (write_ingredient_header_return_next_row ingredient g r)).2 =
          (write_ingredient_header_return_next_row ingredient g r).2 + ds.length :=
        hfold.1
      omega
    · intro rr c hout
      have h2 : (ds.foldl
          (fun p cocktail => (updateCell p.1 p.2 2 (pyStr cocktail.name), p.2 + 1))
          (write_ingredient_header_return_next_row ingredient g r)).2 =
          (write_ingredient_header_return_next_row ingredient g r).2 + ds.length :=
        hfold.1
      have h4 : (ds.foldl
          (fun p cocktail => (updateCell p.1 p.2 2 (pyStr cocktail.name), p.2 + 1))
          (write_ingredient_header_return_next_row ingredient g r)).1 rr c =
          (write_ingredient_header_return_next_row ingredient g r).1 rr c :=
        hfold.2 rr c (by omega)
      rw [h4]
      exact ingredient_header_unchanged ingredient g r rr c (by omega)

/-- Witness for C10: the header and names-writer parts at concrete inputs. -/
theorem C10_cursor_threading_witness :
    (write_cocktail_header_return_next_row mojitoRecipe emptyGrid 5).2 =
      5 + (if 3 ≤ 5 then 2 else 1) ∧
    (write_cocktail_instructions_return_next_row mojitoRecipe emptyGrid 5).2 =
      5 + (if 3 ≤ 5 then 2 else 1) + mojitoRecipe.instructions.length ∧
    (write_cocktail_ingredients_into_spreadsheet_return_next_row mojitoRecipe emptyGrid 5).2 =
      5 + (if 3 ≤ 5 then 2 else 1) + mojitoRecipe.ingredients.length :=
  ⟨(C10_cursor_threading mojitoRecipe emptyGrid 5 (by norm_num)).1.1,
   (C10_cursor_threading mojitoRecipe emptyGrid 5 (by norm_num)).2.1.1,
   (C10_cursor_threading mojitoRecipe emptyGrid 5 (by norm_num)).2.2.1.1⟩

end CocktailHelper
